import Mathlib

set_option maxRecDepth 8192

/- Shallow embedding of the PantryFS core (src/mypantry.c, src/pantryfs_sb.h).

   Modelling conventions:
   - Machine integers are Nat; return codes are Int (0 = success, negative
     errno values as in the source: -EIO = -5, -EINVAL = -22, -EFAULT = -14,
     -ENAMETOOLONG = -36).
   - The block store never fails here: sb_bread always succeeds, so every
     function below is the non-EIO path of the source; copy_to_user and
     copy_from_user are assumed to succeed (user-memory primitives are an
     external collaborator).
   - Every mutation of a block is followed in the source by mark_buffer_dirty
     plus sync_dirty_buffer, so the model state is identified with the on-disk
     state: a field update in the model is a persisted update.
   - The inode table (istore) is keyed by the 1-based inode number:
     PFS_inode_from_istore(bh, ino) addresses byte offset (ino - 1) times the
     record size inside block 1, which is a bijection from inode numbers to
     slots for ino at least 1.
   - Bitmaps are total functions from bit index to Bool, mirroring the
     SETBIT / CLEARBIT / IS_SET macros of pantryfs_sb.h.
-/

/-- Block size, fixed at 4096 bytes by pantryfs_sb.h. -/
def PFS_BLOCK_SIZE : ℕ := 4096

/-- Modelled from the spec: the inode table capacity is block size divided by
    the inode record size. The record layout lives in pantryfs_inode.h, which
    is not among the available sources, so a representative capacity is fixed
    here; no claim depends on the particular value. -/
def PFS_MAX_INODES : ℕ := 32

/-- Modelled from the spec: the directory block capacity is block size divided
    by the directory entry record size (pantryfs_file.h is not among the
    available sources); no claim depends on the particular value. -/
def PFS_MAX_CHILDREN : ℕ := 16

/-- Modelled from the spec: the maximum filename length constant comes from a
    header that is not among the available sources. -/
def PANTRYFS_MAX_FILENAME_LENGTH : ℕ := 123

/-- Inode numbers are 1-based; 0 signals absence (pantryfs_sb.h). -/
def PANTRYFS_ROOT_INODE_NUMBER : ℕ := 1

/-- Regular-file mode bit (the S_IFREG constant of the kernel headers). -/
def S_IFREG : ℕ := 32768

/-- Directory mode bit (the S_IFDIR constant of the kernel headers). -/
def S_IFDIR : ℕ := 16384

/-- On-disk inode record (struct pantryfs_inode); field names follow the
    source uses in mypantry.c: mode, nlink, uid, gid, the three timestamps,
    file_size and data_block_number. Timestamps are abstracted to Nat. -/
structure pantryfs_inode where
  mode : ℕ
  nlink : ℕ
  uid : ℕ
  gid : ℕ
  i_atime : ℕ
  i_mtime : ℕ
  i_ctime : ℕ
  file_size : ℕ
  data_block_number : ℕ
deriving DecidableEq, Repr

/-- The zero-filled inode record, the result of memset(.., 0, PFS_INODE_SIZE). -/
def pantryfs_inode.zero : pantryfs_inode :=
  { mode := 0, nlink := 0, uid := 0, gid := 0, i_atime := 0, i_mtime := 0,
    i_ctime := 0, file_size := 0, data_block_number := 0 }

/-- On-disk directory entry record (struct pantryfs_dir_entry): target inode
    number, active flag, fixed-width filename buffer (abstracted to String;
    the strncpy truncation to the buffer width is not modelled because the
    buffer width header is not among the sources). -/
structure pantryfs_dir_entry where
  inode_no : ℕ
  active : Bool
  filename : String
deriving DecidableEq, Repr

/-- The zero-filled directory entry, the result of memset of the whole slot. -/
def pantryfs_dir_entry.zero : pantryfs_dir_entry :=
  { inode_no := 0, active := false, filename := "" }

/-- In-memory VFS inode (struct inode), restricted to the fields mypantry.c
    reads or writes. i_state_dirty models the dirty mark left by
    mark_inode_dirty, consumed later by pantryfs_write_inode. -/
structure Inode where
  i_ino : ℕ
  i_mode : ℕ
  i_nlink : ℕ
  i_uid : ℕ
  i_gid : ℕ
  i_atime : ℕ
  i_mtime : ℕ
  i_ctime : ℕ
  i_size : ℕ
  i_state_dirty : Bool
deriving DecidableEq, Repr

/-- On-disk state of one mounted PantryFS: the two superblock bitmaps
    (block 0), the inode table (block 1, keyed by 1-based inode number), and
    the single root directory data block (block 2, indexed by slot).
    dirStray records the inode numbers whose link-count decrement
    pantryfs_unlink misdirects into the directory data block bytes
    (PFS_inode_from_istore applied to dir_bh); the typed directory view
    cannot express that byte-level write, so it is logged explicitly. -/
structure FS where
  free_inodes : ℕ → Bool
  free_data_blocks : ℕ → Bool
  istore : ℕ → pantryfs_inode
  dir : ℕ → pantryfs_dir_entry
  dirStray : List ℕ

/-- Linear scan: least index i below n with p i = true, and n when the scan
    reaches capacity with no hit. This is the shape of every for-loop scan in
    mypantry.c (bitmap scans in create, dentry scans in create/unlink/lookup). -/
def scanFirst (p : ℕ → Bool) : ℕ → ℕ
  | 0 => 0
  | n + 1 =>
    if scanFirst p n < n then scanFirst p n
    else if p n then n else n + 1

/-- The inode-bitmap scan of pantryfs_create (first clear bit in free_inodes,
    PFS_MAX_INODES when exhausted). -/
def createInoScan (fs : FS) : ℕ :=
  scanFirst (fun i => !(fs.free_inodes i)) PFS_MAX_INODES

/-- The data-block-bitmap scan of pantryfs_create (first clear bit in
    free_data_blocks, PFS_MAX_INODES when exhausted; the source loop bound is
    PFS_MAX_INODES for both scans). -/
def createDbScan (fs : FS) : ℕ :=
  scanFirst (fun i => !(fs.free_data_blocks i)) PFS_MAX_INODES

/-- PFS_remove_inode: reads the data block number of the inode being removed,
    then executes CLEARBIT(pantry_sb->free_inodes, ino) followed by
    CLEARBIT(pantry_sb->free_inodes, db_no) - both clears hit the free_inodes
    array in the source - and zero-fills the inode record. free_data_blocks is
    never written. -/
def PFS_remove_inode (fs : FS) (inode : Inode) : FS :=
  let db_no := (fs.istore inode.i_ino).data_block_number
  { fs with
    free_inodes := fun k =>
      if k = db_no then false
      else if k = inode.i_ino then false
      else fs.free_inodes k,
    istore := fun k => if k = inode.i_ino then pantryfs_inode.zero else fs.istore k }

/-- pantryfs_create, non-EIO path. Scans both bitmaps, bails out (with ret
    still 0) if either scan reached capacity, otherwise sets both bits, writes
    the new record at the slot of inode number new_ino_no with hardcoded mode
    S_IFREG bitor 0666 (the mode argument is not read), then scans the parent
    directory block for the first inactive slot and either bails out (ret
    still 0, inode and data block remain allocated) or writes the entry.
    uid, gid come from the parent inode and now is current_time. -/
def pantryfs_create (fs : FS) (uid gid now : ℕ) (name : String) (mode : ℕ) :
    FS × Int :=
  let new_ino_no := createInoScan fs
  let new_db_no := createDbScan fs
  if new_ino_no = PFS_MAX_INODES ∨ new_db_no = PFS_MAX_INODES then (fs, 0)
  else
    let fs1 : FS :=
      { fs with
        free_inodes := fun k => if k = new_ino_no then true else fs.free_inodes k,
        free_data_blocks := fun k => if k = new_db_no then true else fs.free_data_blocks k }
    let fs2 : FS :=
      { fs1 with
        istore := fun k =>
          if k = new_ino_no then
            { nlink := 1, mode := S_IFREG ||| 0o666, data_block_number := new_db_no,
              file_size := 0, uid := uid, gid := gid,
              i_atime := now, i_mtime := now, i_ctime := now }
          else fs1.istore k }
    let new_dentry_no := scanFirst (fun i => !(fs2.dir i).active) PFS_MAX_CHILDREN
    if new_dentry_no = PFS_MAX_CHILDREN then (fs2, 0)
    else
      ({ fs2 with
          dir := fun k =>
            if k = new_dentry_no then
              { inode_no := new_ino_no, active := true, filename := name }
            else fs2.dir k }, 0)

/-- pantryfs_unlink, non-EIO path, acting on the root directory. Scans the
    directory block with strcmp on the filename (no active check in the
    source), fails with -EFAULT when no slot matches, zero-fills the matching
    slot, decrements the in-memory link count and marks the inode dirty, then
    performs the on-disk decrement through PFS_inode_from_istore(dir_bh, ino):
    the source hands it the DIRECTORY block buffer, so the inode table is not
    modified and the stray byte write into the directory block is logged in
    dirStray; the inode-table buffer is then synced unchanged. If the
    in-memory link count reached zero the source calls PFS_remove_inode. -/
def pantryfs_unlink (fs : FS) (dentry_inode : Inode) (name : String) :
    FS × Inode × Int :=
  let i := scanFirst (fun k => (fs.dir k).filename == name) PFS_MAX_CHILDREN
  if i = PFS_MAX_CHILDREN then (fs, dentry_inode, -14)
  else
    let fs1 : FS :=
      { fs with dir := fun k => if k = i then pantryfs_dir_entry.zero else fs.dir k }
    let v1 : Inode :=
      { dentry_inode with i_nlink := dentry_inode.i_nlink - 1, i_state_dirty := true }
    let fs2 : FS := { fs1 with dirStray := fs1.dirStray ++ [dentry_inode.i_ino] }
    if v1.i_nlink ≠ 0 then (fs2, v1, 0)
    else (PFS_remove_inode fs2 v1, v1, 0)

/-- pantryfs_write_inode, non-EIO path: copies mode, uid, gid, nlink, the
    three timestamps and the size from the in-memory inode into the on-disk
    record of that inode number and persists the table;
    data_block_number is not written. -/
def pantryfs_write_inode (fs : FS) (inode : Inode) : FS :=
  { fs with
    istore := fun k =>
      if k = inode.i_ino then
        { mode := inode.i_mode, nlink := inode.i_nlink, uid := inode.i_uid,
          gid := inode.i_gid, i_atime := inode.i_atime, i_mtime := inode.i_mtime,
          i_ctime := inode.i_ctime, file_size := inode.i_size,
          data_block_number := (fs.istore inode.i_ino).data_block_number }
      else fs.istore k }

/-- pantryfs_evict_inode, non-EIO path: after the VFS cache housekeeping
    (truncate_inode_pages_final and clear_inode, which do not touch the disk
    state) it calls PFS_remove_inode unconditionally - there is no link-count
    test anywhere in the function. -/
def pantryfs_evict_inode (fs : FS) (inode : Inode) : FS :=
  PFS_remove_inode fs inode

/-- pantryfs_read, non-EIO path: returns the byte count read and the new file
    position. Offset equal to the block size returns 0 (clean EOF), offset
    beyond it returns -EINVAL, otherwise the length is clipped so that
    offset plus length stays within the block. The byte transfer itself
    (copy_to_user from the data block) is the external collaborator and is
    assumed to succeed. -/
def pantryfs_read (ppos len : ℕ) : Int × ℕ :=
  if ppos = PFS_BLOCK_SIZE then (0, ppos)
  else if PFS_BLOCK_SIZE < ppos then (-22, ppos)
  else
    let amt_to_read := if PFS_BLOCK_SIZE < len + ppos then PFS_BLOCK_SIZE - ppos else len
    ((amt_to_read : Int), ppos + amt_to_read)

/-- pantryfs_write, non-EIO path: rejects offsets beyond the current size with
    -EINVAL, then forces the offset to the current size under O_APPEND, clips
    the length so that offset plus length stays within the block, performs the
    transfer (copy_from_user, assumed to succeed), advances the position, and
    when the final position passed the old size stores it with i_size_write
    and marks the inode dirty (persisted later by pantryfs_write_inode).
    Returns the updated in-memory inode, the new position and the byte count. -/
def pantryfs_write (inode : Inode) (isappend : Bool) (ppos len : ℕ) :
    Inode × ℕ × Int :=
  if inode.i_size < ppos then (inode, ppos, -22)
  else
    let pos1 := if isappend then inode.i_size else ppos
    let amt_to_write := if PFS_BLOCK_SIZE < len + pos1 then PFS_BLOCK_SIZE - pos1 else len
    let pos2 := pos1 + amt_to_write
    let v2 : Inode :=
      if inode.i_size < pos2 then { inode with i_size := pos2, i_state_dirty := true }
      else inode
    (v2, pos2, (amt_to_write : Int))

/-- Bundle of the success-path facts of pantryfs_write at one call, used by
    the write specification below: the returned count is the clipped length,
    the new position is the effective offset plus that count and stays within
    the block, and a write that passed the old size stored the new size, left
    the inode dirty, and a subsequent pantryfs_write_inode persists that size
    into the on-disk record. -/
def WriteOk (inode : Inode) (isappend : Bool) (ppos len : ℕ) (fs : FS) : Prop :=
  let eff := if isappend then inode.i_size else ppos
  let amt := min len (PFS_BLOCK_SIZE - eff)
  let out := pantryfs_write inode isappend ppos len
  out.2.2 = (amt : Int) ∧
  out.2.1 = eff + amt ∧
  eff + amt ≤ PFS_BLOCK_SIZE ∧
  (inode.i_size < eff + amt →
    out.1.i_size = eff + amt ∧
    out.1.i_state_dirty = true ∧
    ((pantryfs_write_inode fs out.1).istore inode.i_ino).file_size = eff + amt)

/-- pfs_inode: materializes an in-memory inode for inode number ino with
    on-disk record r, through the host inode cache (modelled as a map from
    cache key to inode). The source calls iget_locked(sb, le64_to_cpu(0)):
    the cache key is the constant 0, not ino. On a cache hit (not I_NEW) the
    cached inode is returned unchanged; on a miss a fresh inode is populated
    from r (the root inode mode is synthesized as S_IFDIR bitor 0777) and
    cached under key 0. -/
def pfs_inode (c : ℕ → Option Inode) (ino : ℕ) (r : pantryfs_inode) :
    (ℕ → Option Inode) × Inode :=
  let isroot : Bool := ino == PANTRYFS_ROOT_INODE_NUMBER
  match c 0 with
  | some inode => (c, inode)
  | none =>
    let inode : Inode :=
      { i_ino := ino,
        i_mode := if isroot then S_IFDIR ||| 0o777 else r.mode,
        i_nlink := r.nlink,
        i_uid := r.uid, i_gid := r.gid,
        i_atime := r.i_atime, i_mtime := r.i_mtime, i_ctime := r.i_ctime,
        i_size := if (r.mode &&& S_IFDIR != 0) || isroot then PFS_BLOCK_SIZE else r.file_size,
        i_state_dirty := false }
    (fun k => if k = 0 then some inode else c k, inode)

/-- Root-inode materialization step of pantryfs_fill_super: the first record
    of the inode-table block (the slot of inode number 1) is copied out and
    handed to pfs_inode with ino = PANTRYFS_ROOT_INODE_NUMBER. -/
def pantryfs_fill_super_root (fs : FS) (c : ℕ → Option Inode) :
    (ℕ → Option Inode) × Inode :=
  pfs_inode c PANTRYFS_ROOT_INODE_NUMBER (fs.istore 1)

/-- pantryfs_lookup, non-EIO path: rejects names longer than the maximum
    before any scan (-ENAMETOOLONG), then scans the parent directory block for
    the first active entry whose filename matches (bounded strncmp, modelled
    as string equality), returns none on a miss, and on a hit materializes the
    target inode through pfs_inode (d_add then publishes it to the dentry
    cache, an external collaborator). -/
def pantryfs_lookup (fs : FS) (c : ℕ → Option Inode) (name : String) :
    Except Int ((ℕ → Option Inode) × Option Inode) :=
  if PANTRYFS_MAX_FILENAME_LENGTH < name.length then Except.error (-36)
  else
    let i := scanFirst
      (fun k => (fs.dir k).active && ((fs.dir k).filename == name)) PFS_MAX_CHILDREN
    if i = PFS_MAX_CHILDREN then Except.ok (c, none)
    else
      let pr := pfs_inode c ((fs.dir i).inode_no) (fs.istore ((fs.dir i).inode_no))
      Except.ok (pr.1, some pr.2)

/-- Loop body of pantryfs_iterate over the directory slots: fuel counts the
    remaining slots, i is the slot index, pos mirrors ctx->pos, acc the
    entries emitted so far in this call. accept models the dir_emit callback
    of the host (it sees how many entries this call has emitted and decides
    whether to take one more); a declined emit breaks out of the loop. -/
def iterLoop (dir : ℕ → pantryfs_dir_entry) (accept : ℕ → Bool) :
    ℕ → ℕ → ℕ → List (String × ℕ) → ℕ × List (String × ℕ)
  | 0, _, pos, acc => (pos, acc)
  | fuel + 1, i, pos, acc =>
    if !(dir i).active then iterLoop dir accept fuel (i + 1) pos acc
    else if accept acc.length then
      iterLoop dir accept fuel (i + 1) (pos + 1)
        (acc ++ [((dir i).filename, (dir i).inode_no)])
    else (pos, acc)

/-- dir_emit_dots of the host VFS: emits "." at position 0 and ".." at
    position 1 (both resolving to the root inode, the only directory),
    advancing the position past each accepted dot; returns false when the
    callback declines. -/
def dir_emit_dots (accept : ℕ → Bool) (pos : ℕ) :
    Bool × ℕ × List (String × ℕ) :=
  if pos = 0 then
    if accept 0 then
      if accept 1 then (true, 2, [(".", PANTRYFS_ROOT_INODE_NUMBER), ("..", PANTRYFS_ROOT_INODE_NUMBER)])
      else (false, 1, [(".", PANTRYFS_ROOT_INODE_NUMBER)])
    else (false, 0, [])
  else if pos = 1 then
    if accept 0 then (true, 2, [("..", PANTRYFS_ROOT_INODE_NUMBER)])
    else (false, 1, [])
  else (true, pos, [])

/-- pantryfs_iterate, non-EIO path: returns the new ctx->pos and the list of
    entries emitted during this call. A position beyond PFS_MAX_CHILDREN + 2
    returns immediately; otherwise the dots are emitted, the directory slots
    are scanned from index 0 emitting every active entry until the callback
    declines, and then - on the break path as well as on loop completion -
    ctx->pos is set to the PFS_MAX_CHILDREN + 3 sentinel (the assignment after
    the loop in the source is not guarded by how the loop exited). -/
def pantryfs_iterate (fs : FS) (accept : ℕ → Bool) (pos : ℕ) :
    ℕ × List (String × ℕ) :=
  if PFS_MAX_CHILDREN + 2 < pos then (pos, [])
  else
    let dots := dir_emit_dots accept pos
    if dots.1 = false then (dots.2.1, dots.2.2)
    else
      let r := iterLoop fs.dir accept PFS_MAX_CHILDREN 0 dots.2.1 dots.2.2
      (PFS_MAX_CHILDREN + 3, r.2)

/-- Bitmap-to-table invariant in the convention mypantry.c actually uses:
    bit 0 of free_inodes is permanently set (inode numbers start at 1 and the
    source uses the inode number itself as the bit index), and for every other
    index below capacity, bit i is set exactly when the record of inode
    number i is live (not zero-filled). -/
def codeInv (fs : FS) : Prop :=
  fs.free_inodes 0 = true ∧
  ∀ i, i < PFS_MAX_INODES → 1 ≤ i →
    (fs.free_inodes i = true ↔ fs.istore i ≠ pantryfs_inode.zero)

/-- Bitmap-to-table invariant exactly as the claim states it: bit i of
    free_inodes is set iff the inode-table slot of inode number i + 1 holds a
    live (non-zero-filled) record. -/
def claimedInv (fs : FS) : Prop :=
  ∀ i, i < PFS_MAX_INODES →
    (fs.free_inodes i = true ↔ fs.istore (i + 1) ≠ pantryfs_inode.zero)

/-- Concrete live record used by the test states below: a one-link regular
    file of mode S_IFREG bitor 0666 owning data block db. -/
def fileRec (db : ℕ) : pantryfs_inode :=
  { mode := S_IFREG ||| 0o666, nlink := 1, uid := 0, gid := 0, i_atime := 1,
    i_mtime := 1, i_ctime := 1, file_size := 0, data_block_number := db }

/-- Concrete root directory record owning data block 2 with two links. -/
def rootRec : pantryfs_inode :=
  { mode := S_IFDIR ||| 0o777, nlink := 2, uid := 0, gid := 0, i_atime := 1,
    i_mtime := 1, i_ctime := 1, file_size := 0, data_block_number := 2 }

/-- Test state for the reclamation-bitmap claim: inodes 2 and 3 allocated
    (bits 2, 3 of free_inodes set), inode 2 owns data block 3 (bit 3 of
    free_data_blocks set). -/
def fsC1 : FS :=
  { free_inodes := fun k => k == 2 || k == 3,
    free_data_blocks := fun k => k == 3,
    istore := fun k => if k = 2 then fileRec 3 else if k = 3 then fileRec 4 else pantryfs_inode.zero,
    dir := fun _ => pantryfs_dir_entry.zero,
    dirStray := [] }

/-- In-memory inode handle for inode number 2 of fsC1, already unlinked. -/
def vC1 : Inode :=
  { i_ino := 2, i_mode := S_IFREG ||| 0o666, i_nlink := 0, i_uid := 0, i_gid := 0,
    i_atime := 1, i_mtime := 1, i_ctime := 1, i_size := 0, i_state_dirty := false }

/-- Test state for the unlink-decrement claim: one directory entry mapping
    name a to inode 2, whose on-disk record has link count 2. -/
def fsC2 : FS :=
  { free_inodes := fun k => k == 2,
    free_data_blocks := fun k => k == 3,
    istore := fun k =>
      if k = 2 then { fileRec 3 with nlink := 2 } else pantryfs_inode.zero,
    dir := fun k =>
      if k = 0 then { inode_no := 2, active := true, filename := "a" }
      else pantryfs_dir_entry.zero,
    dirStray := [] }

/-- In-memory inode handle for inode number 2 of fsC2 with link count 2. -/
def vC2 : Inode :=
  { i_ino := 2, i_mode := S_IFREG ||| 0o666, i_nlink := 2, i_uid := 0, i_gid := 0,
    i_atime := 1, i_mtime := 1, i_ctime := 1, i_size := 0, i_state_dirty := false }

/-- Test state with every inode-bitmap bit below capacity set: the create
    inode scan is exhausted. -/
def fsNoSpace : FS :=
  { free_inodes := fun _ => true,
    free_data_blocks := fun _ => true,
    istore := fun _ => pantryfs_inode.zero,
    dir := fun _ => pantryfs_dir_entry.zero,
    dirStray := [] }

/-- Test state with free bitmap slots but every directory slot active: the
    create dentry scan is exhausted. -/
def fsDirFull : FS :=
  { free_inodes := fun k => k == 0,
    free_data_blocks := fun k => k == 0 || k == 1 || k == 2,
    istore := fun _ => pantryfs_inode.zero,
    dir := fun _ => { inode_no := 9, active := true, filename := "x" },
    dirStray := [] }

/-- Test state satisfying the claimed (offset by one) bitmap invariant: bits
    0 and 1 set, inode records 1 and 2 live, everything else clear and
    zero-filled; data blocks 0, 1, 2 allocated, directory empty. -/
def S4 : FS :=
  { free_inodes := fun k => k == 0 || k == 1,
    free_data_blocks := fun k => k == 0 || k == 1 || k == 2,
    istore := fun k =>
      if k = 1 then rootRec else if k = 2 then fileRec 3 else pantryfs_inode.zero,
    dir := fun _ => pantryfs_dir_entry.zero,
    dirStray := [] }

/-- Test state satisfying the code-convention bitmap invariant with a
    data-block number colliding with a live inode number: inodes 1, 2, 3 live
    (bits 0..3 set), and the record of inode 2 owns data block number 3. -/
def T4 : FS :=
  { free_inodes := fun k => k == 0 || k == 1 || k == 2 || k == 3,
    free_data_blocks := fun k => k == 0 || k == 1 || k == 2 || k == 3 || k == 4,
    istore := fun k =>
      if k = 1 then rootRec
      else if k = 2 then fileRec 3
      else if k = 3 then fileRec 4
      else pantryfs_inode.zero,
    dir := fun _ => pantryfs_dir_entry.zero,
    dirStray := [] }

/-- In-memory inode handle for inode number 2 of T4. -/
def vT4 : Inode :=
  { i_ino := 2, i_mode := S_IFREG ||| 0o666, i_nlink := 0, i_uid := 0, i_gid := 0,
    i_atime := 1, i_mtime := 1, i_ctime := 1, i_size := 0, i_state_dirty := false }

/-- Witness state for the code-convention invariant: only the root inode is
    live and its data block is 2, a dead slot. -/
def fs4w : FS :=
  { free_inodes := fun k => k == 0 || k == 1,
    free_data_blocks := fun k => k == 0 || k == 1 || k == 2,
    istore := fun k => if k = 1 then rootRec else pantryfs_inode.zero,
    dir := fun _ => pantryfs_dir_entry.zero,
    dirStray := [] }

/-- In-memory inode handle for the root inode of fs4w. -/
def vW4 : Inode :=
  { i_ino := 1, i_mode := S_IFDIR ||| 0o777, i_nlink := 2, i_uid := 0, i_gid := 0,
    i_atime := 1, i_mtime := 1, i_ctime := 1, i_size := PFS_BLOCK_SIZE,
    i_state_dirty := false }

/-- Test state for the create-record claim: inodes 1 and 2 allocated, data
    blocks 0..2 allocated, directory empty, so create picks inode number 2
    (bit index 2) and data block 3. -/
def S5 : FS :=
  { free_inodes := fun k => k == 0 || k == 1,
    free_data_blocks := fun k => k == 0 || k == 1 || k == 2,
    istore := fun k => if k = 1 then rootRec else pantryfs_inode.zero,
    dir := fun _ => pantryfs_dir_entry.zero,
    dirStray := [] }

/-- Test state for the lookup claim: directory entry a mapping to inode 2,
    whose on-disk record is a live regular file. -/
def fsW6 : FS :=
  { free_inodes := fun k => k == 0 || k == 1 || k == 2,
    free_data_blocks := fun k => k == 0 || k == 1 || k == 2 || k == 3,
    istore := fun k =>
      if k = 1 then rootRec else if k = 2 then fileRec 3 else pantryfs_inode.zero,
    dir := fun k =>
      if k = 0 then { inode_no := 2, active := true, filename := "a" }
      else pantryfs_dir_entry.zero,
    dirStray := [] }

/-- Empty host inode cache, the state at mount time. -/
def cW6 : ℕ → Option Inode := fun _ => none

/-- In-memory inode for the write claim: a 10-byte regular file, inode 2. -/
def vW7 : Inode :=
  { i_ino := 2, i_mode := S_IFREG ||| 0o666, i_nlink := 1, i_uid := 0, i_gid := 0,
    i_atime := 1, i_mtime := 1, i_ctime := 1, i_size := 10, i_state_dirty := false }

/-- Disk state backing vW7. -/
def fsW7 : FS :=
  { free_inodes := fun k => k == 0 || k == 1 || k == 2,
    free_data_blocks := fun k => k == 0 || k == 1 || k == 2 || k == 3,
    istore := fun k =>
      if k = 1 then rootRec
      else if k = 2 then { fileRec 3 with file_size := 10 }
      else pantryfs_inode.zero,
    dir := fun k =>
      if k = 0 then { inode_no := 2, active := true, filename := "a" }
      else pantryfs_dir_entry.zero,
    dirStray := [] }

/-- Test state for the evict claim: inode 2 live with one remaining link. -/
def fsC9 : FS :=
  { free_inodes := fun k => k == 0 || k == 1 || k == 2,
    free_data_blocks := fun k => k == 0 || k == 1 || k == 2 || k == 3,
    istore := fun k =>
      if k = 1 then rootRec else if k = 2 then fileRec 3 else pantryfs_inode.zero,
    dir := fun k =>
      if k = 0 then { inode_no := 2, active := true, filename := "a" }
      else pantryfs_dir_entry.zero,
    dirStray := [] }

/-- In-memory inode handle for inode 2 of fsC9, still linked (nlink 1). -/
def vC9 : Inode :=
  { i_ino := 2, i_mode := S_IFREG ||| 0o666, i_nlink := 1, i_uid := 0, i_gid := 0,
    i_atime := 1, i_mtime := 1, i_ctime := 1, i_size := 0, i_state_dirty := false }

/-- Test state for the iterate claim: two active directory entries a and b. -/
def fs10 : FS :=
  { free_inodes := fun k => k == 0 || k == 1 || k == 2 || k == 3,
    free_data_blocks := fun k => k == 0 || k == 1 || k == 2 || k == 3 || k == 4,
    istore := fun k =>
      if k = 1 then rootRec
      else if k = 2 then fileRec 3
      else if k = 3 then fileRec 4
      else pantryfs_inode.zero,
    dir := fun k =>
      if k = 0 then { inode_no := 2, active := true, filename := "a" }
      else if k = 1 then { inode_no := 3, active := true, filename := "b" }
      else pantryfs_dir_entry.zero,
    dirStray := [] }

/-- Callback that accepts three entries in one iterate call, then declines. -/
def accept3 : ℕ → Bool := fun k => decide (k < 3)

/-- A linear scan never passes its bound. -/
theorem scanFirst_le (p : ℕ → Bool) (n : ℕ) : scanFirst p n ≤ n := by
  induction n with
  | zero => simp [scanFirst]
  | succ n ih =>
    simp only [scanFirst]
    split_ifs <;> omega

/-- A scan that stopped below its bound stopped at a hit. -/
theorem scanFirst_lt (p : ℕ → Bool) (n : ℕ) (h : scanFirst p n < n) :
    p (scanFirst p n) = true := by
  induction n with
  | zero => exact absurd h (Nat.not_lt_zero _)
  | succ n ih =>
    by_cases h1 : scanFirst p n < n
    · simpa [scanFirst, h1] using ih h1
    · by_cases h2 : p n = true
      · rw [show scanFirst p (n + 1) = n by simp [scanFirst, h1, h2]]
        exact h2
      · simp [scanFirst, h1, h2] at h

/-- Everything strictly before the scan result is a miss. -/
theorem scanFirst_min (p : ℕ → Bool) (n : ℕ) :
    ∀ i, i < scanFirst p n → p i = false := by
  induction n with
  | zero => intro i h; simp [scanFirst] at h
  | succ n ih =>
    intro i h
    have hle := scanFirst_le p n
    by_cases h1 : scanFirst p n < n
    · rw [show scanFirst p (n + 1) = scanFirst p n by simp [scanFirst, h1]] at h
      exact ih i h
    · have hsn : scanFirst p n = n := by omega
      by_cases h2 : p n = true
      · rw [show scanFirst p (n + 1) = n by simp [scanFirst, h1, h2]] at h
        exact ih i (by omega)
      · rw [show scanFirst p (n + 1) = n + 1 by simp [scanFirst, h1, h2]] at h
        rcases Nat.lt_or_ge i n with hin | hin
        · exact ih i (by omega)
        · have hieq : i = n := by omega
          subst hieq
          exact Bool.eq_false_iff.mpr h2

/-- The record pantryfs_create writes is never the zero record (its link
    count is 1). -/
theorem createRec_ne_zero (uid gid now db : ℕ) :
    ({ nlink := 1, mode := S_IFREG ||| 0o666, data_block_number := db,
       file_size := 0, uid := uid, gid := gid,
       i_atime := now, i_mtime := now, i_ctime := now } : pantryfs_inode) ≠
      pantryfs_inode.zero := by
  intro he
  have hn := congrArg pantryfs_inode.nlink he
  simp [pantryfs_inode.zero] at hn

/-- Setting a clear-able bit j and writing a live record at inode number j
    preserves the code-convention invariant; the other fields of the state
    are irrelevant. -/
theorem codeInv_update (fs g : FS) (h : codeInv fs) (j : ℕ) (r : pantryfs_inode)
    (hr : r ≠ pantryfs_inode.zero)
    (hgf : g.free_inodes = fun k => if k = j then true else fs.free_inodes k)
    (hgi : g.istore = fun k => if k = j then r else fs.istore k) :
    codeInv g := by
  constructor
  · rw [hgf]
    by_cases h0 : (0 : ℕ) = j <;> simp [h0, h.1]
  · intro i hi h1
    rw [hgf, hgi]
    by_cases hij : i = j
    · simp [hij, hr]
    · simp only [if_neg hij]
      exact h.2 i hi h1

/-- Claim C1: when a link count reaches zero, reclamation is claimed to clear
    the inode bit in free_inodes, clear the owned data block bit in
    free_data_blocks, and zero-fill the inode record. Evaluating
    PFS_remove_inode on inode 2 (owning data block 3) shows the code instead
    clears bit 3 of free_inodes as well, leaves bit 3 of free_data_blocks
    set, while inode bit and record are handled as claimed. -/
theorem remove_inode_clears_wrong_bitmap :
    (PFS_remove_inode fsC1 vC1).free_inodes 2 = false ∧
    (PFS_remove_inode fsC1 vC1).istore 2 = pantryfs_inode.zero ∧
    (PFS_remove_inode fsC1 vC1).free_data_blocks 3 = true ∧
    (PFS_remove_inode fsC1 vC1).free_inodes 3 = false := by
  decide

/-- Claim C2: unlink of the only entry named a, target inode 2 with link
    count 2. The in-memory link count drops to 1 and the call succeeds, but
    the on-disk record in the inode table still carries link count 2: the
    decrement was misdirected into the directory data block (logged in
    dirStray), and the inode-table block was persisted unchanged. -/
theorem unlink_decrement_misses_inode_table :
    (pantryfs_unlink fsC2 vC2 "a").2.2 = 0 ∧
    (pantryfs_unlink fsC2 vC2 "a").2.1.i_nlink = 1 ∧
    ((pantryfs_unlink fsC2 vC2 "a").1.istore 2).nlink = 2 ∧
    (pantryfs_unlink fsC2 vC2 "a").1.dirStray = [2] := by
  decide

/-- Claim C3: with the inode bitmap exhausted, create returns 0 (success)
    and leaves the state untouched instead of reporting NoSpace; with every
    directory slot occupied, create also returns 0 while no entry bearing the
    requested name was inserted, instead of reporting DirectoryFull. -/
theorem create_swallows_errors :
    pantryfs_create fsNoSpace 0 0 7 "a" 420 = (fsNoSpace, 0) ∧
    (pantryfs_create fsDirFull 0 0 7 "a" 420).2 = 0 ∧
    (∀ k, k < PFS_MAX_CHILDREN →
      ((pantryfs_create fsDirFull 0 0 7 "a" 420).1.dir k).filename ≠ "a") := by
  refine ⟨rfl, by decide, by decide⟩

/-- Claim C9 counterexample: evicting inode 2 while its link count is still 1
    performs the full reclamation (bit cleared, record zero-filled) instead of
    refusing or flagging an internal-consistency violation. -/
theorem evict_reclaims_linked_inode :
    vC9.i_nlink = 1 ∧
    (pantryfs_evict_inode fsC9 vC9).free_inodes 2 = false ∧
    (pantryfs_evict_inode fsC9 vC9).istore 2 = pantryfs_inode.zero := by
  decide

/-- Claim C10: a directory holds active entries a and b; the first iterate
    call accepts the two dots and a, then declines b. The call nevertheless
    sets the position to the PFS_MAX_CHILDREN + 3 done sentinel, so the
    resumed call (whose callback would accept everything) emits nothing and b
    is lost, contradicting resumability; the sentinel was written although
    not all active entries had been emitted. -/
theorem iterate_done_sentinel_after_early_stop :
    pantryfs_iterate fs10 accept3 0 =
      (PFS_MAX_CHILDREN + 3, [(".", 1), ("..", 1), ("a", 2)]) ∧
    pantryfs_iterate fs10 (fun _ => true) (PFS_MAX_CHILDREN + 3) =
      (PFS_MAX_CHILDREN + 3, []) := by
  decide

/-- Claim C4 counterexample: S4 satisfies the invariant exactly as claimed
    (bit i of free_inodes iff the record of inode number i + 1 is live), yet
    one successful create breaks it, because create sets bit i for the record
    of inode number i, not i + 1. Moreover even the code-convention invariant
    is not preserved by reclamation: T4 satisfies it, but removing inode 2,
    whose record owns data block number 3, clears free_inodes bit 3 while the
    live record of inode 3 stays in the table. -/
theorem create_breaks_claimed_bitmap_invariant :
    claimedInv S4 ∧ ¬ claimedInv (pantryfs_create S4 0 0 7 "a" 420).1 ∧
    codeInv T4 ∧ ¬ codeInv (PFS_remove_inode T4 vT4) := by
  unfold claimedInv codeInv
  decide

/-- Claim C5 counterexample: create called with mode argument 33188 (octal
    100644) writes a record whose mode is 33206 (octal 100666): the caller
    mode is ignored. -/
theorem create_ignores_mode_argument :
    ((pantryfs_create S5 0 0 7 "a" 33188).1.istore 2).mode = 33206 ∧
    (33206 : ℕ) ≠ 33188 := by
  decide

/-- Claim C9 (amended): pantryfs_evict_inode performs the reclamation of
    PFS_remove_inode unconditionally, for every inode it is invoked on and
    regardless of its link count: the inode bit is cleared, the record is
    zero-filled, the bit at the owned data block number is cleared in
    free_inodes, and free_data_blocks is untouched. There is no guard against
    double reclamation and no internal-consistency check. -/
theorem evict_unconditional_reclaim (fs : FS) (inode : Inode) :
    (pantryfs_evict_inode fs inode).free_inodes inode.i_ino = false ∧
    (pantryfs_evict_inode fs inode).istore inode.i_ino = pantryfs_inode.zero ∧
    (pantryfs_evict_inode fs inode).free_inodes
      ((fs.istore inode.i_ino).data_block_number) = false ∧
    (∀ k, (pantryfs_evict_inode fs inode).free_data_blocks k = fs.free_data_blocks k) := by
  refine ⟨?_, ?_, ?_, fun k => rfl⟩
  · show (if inode.i_ino = (fs.istore inode.i_ino).data_block_number then false
      else if inode.i_ino = inode.i_ino then false
      else fs.free_inodes inode.i_ino) = false
    split_ifs with h1 h2
    · rfl
    · rfl
    · exact absurd rfl h2
  · show (if inode.i_ino = inode.i_ino then pantryfs_inode.zero
      else fs.istore inode.i_ino) = pantryfs_inode.zero
    rw [if_pos rfl]
  · show (if (fs.istore inode.i_ino).data_block_number
        = (fs.istore inode.i_ino).data_block_number then false
      else if (fs.istore inode.i_ino).data_block_number = inode.i_ino then false
      else fs.free_inodes ((fs.istore inode.i_ino).data_block_number)) = false
    rw [if_pos rfl]

/-- Claim C8: read at offset exactly the block size returns zero bytes and an
    unchanged position (clean EOF); read at an offset beyond the block size
    fails with -EINVAL; otherwise the requested length is clipped so that
    offset plus length never exceeds the block size and the clipped count is
    returned. -/
theorem read_bounds_spec (ppos len : ℕ) :
    (ppos = PFS_BLOCK_SIZE → pantryfs_read ppos len = (0, ppos)) ∧
    (PFS_BLOCK_SIZE < ppos → pantryfs_read ppos len = (-22, ppos)) ∧
    (ppos < PFS_BLOCK_SIZE →
      pantryfs_read ppos len =
        (((min len (PFS_BLOCK_SIZE - ppos) : ℕ) : ℤ), ppos + min len (PFS_BLOCK_SIZE - ppos)) ∧
      ppos + min len (PFS_BLOCK_SIZE - ppos) ≤ PFS_BLOCK_SIZE) := by
  refine ⟨?_, ?_, ?_⟩
  · intro h; simp [pantryfs_read, h]
  · intro h
    have hne : ¬ ppos = PFS_BLOCK_SIZE := by omega
    simp [pantryfs_read, hne, h]
  · intro h
    have hne : ¬ ppos = PFS_BLOCK_SIZE := by omega
    have hnl : ¬ PFS_BLOCK_SIZE < ppos := by omega
    have hamt : (if PFS_BLOCK_SIZE < len + ppos then PFS_BLOCK_SIZE - ppos else len)
        = min len (PFS_BLOCK_SIZE - ppos) := by
      split_ifs <;> omega
    constructor
    · simp only [pantryfs_read, if_neg hne, if_neg hnl]
      rw [hamt]
    · omega

/-- Claim C8 witness: reading at offset 4096 is a clean EOF, at 5000 an
    error, and at 4090 a request for 10 bytes is clipped to 6. -/
theorem read_bounds_spec_witness :
    pantryfs_read 4096 7 = (0, 4096) ∧
    pantryfs_read 5000 3 = (-22, 5000) ∧
    (pantryfs_read 4090 10 =
        (((min 10 (PFS_BLOCK_SIZE - 4090) : ℕ) : ℤ), 4090 + min 10 (PFS_BLOCK_SIZE - 4090)) ∧
      4090 + min 10 (PFS_BLOCK_SIZE - 4090) ≤ PFS_BLOCK_SIZE) :=
  ⟨(read_bounds_spec 4096 7).1 (by decide),
   (read_bounds_spec 5000 3).2.1 (by decide),
   (read_bounds_spec 4090 10).2.2 (by decide)⟩

/-- Claim C7: write fails with -EINVAL when the offset exceeds the current
    size; otherwise the effective offset is forced to the current size under
    O_APPEND, the length is clipped so that offset plus length never exceeds
    the block size, the clipped count is returned, and a write that passed
    the old size stores the new size, marks the inode dirty, and the
    subsequent write-back persists the size into the on-disk record. -/
theorem write_bounds_spec (inode : Inode) (isappend : Bool) (ppos len : ℕ) (fs : FS)
    (hsz : inode.i_size ≤ PFS_BLOCK_SIZE) :
    (inode.i_size < ppos → pantryfs_write inode isappend ppos len = (inode, ppos, -22)) ∧
    (ppos ≤ inode.i_size → WriteOk inode isappend ppos len fs) := by
  constructor
  · intro h
    simp [pantryfs_write, h]
  · intro h
    have hnl : ¬ inode.i_size < ppos := by omega
    simp only [WriteOk, pantryfs_write, if_neg hnl]
    set eff := if isappend = true then inode.i_size else ppos with heff
    have heffsz : eff ≤ inode.i_size := by
      rw [heff]; split_ifs <;> omega
    have hamt : (if PFS_BLOCK_SIZE < len + eff then PFS_BLOCK_SIZE - eff else len)
        = min len (PFS_BLOCK_SIZE - eff) := by
      split_ifs <;> omega
    rw [hamt]
    refine ⟨rfl, rfl, by omega, ?_⟩
    intro hext
    rw [if_pos hext]
    refine ⟨rfl, rfl, ?_⟩
    simp [pantryfs_write_inode]

/-- Claim C7 witness: on a 10-byte file, a plain write of 100 bytes at
    offset 5 satisfies the write specification. -/
theorem write_bounds_spec_witness :
    vW7.i_size ≤ PFS_BLOCK_SIZE ∧
    ((vW7.i_size < 5 → pantryfs_write vW7 false 5 100 = (vW7, 5, -22)) ∧
     (5 ≤ vW7.i_size → WriteOk vW7 false 5 100 fsW7)) :=
  ⟨by decide, write_bounds_spec vW7 false 5 100 fsW7 (by decide)⟩

/-- Claim C5 (amended): every successful create writes a record with link
    count 1, file size 0 and all three timestamps set to the current time,
    but the mode field is hardcoded to S_IFREG bitor 0666 regardless of the
    mode argument supplied by the caller. -/
theorem create_record_fields (fs : FS) (uid gid now : ℕ) (name : String) (mode : ℕ)
    (hi : createInoScan fs < PFS_MAX_INODES) (hd : createDbScan fs < PFS_MAX_INODES) :
    ((pantryfs_create fs uid gid now name mode).1.istore (createInoScan fs)).nlink = 1 ∧
    ((pantryfs_create fs uid gid now name mode).1.istore (createInoScan fs)).mode
      = (S_IFREG ||| 0o666) ∧
    ((pantryfs_create fs uid gid now name mode).1.istore (createInoScan fs)).file_size = 0 ∧
    ((pantryfs_create fs uid gid now name mode).1.istore (createInoScan fs)).i_atime = now ∧
    ((pantryfs_create fs uid gid now name mode).1.istore (createInoScan fs)).i_mtime = now ∧
    ((pantryfs_create fs uid gid now name mode).1.istore (createInoScan fs)).i_ctime = now := by
  have hcond : ¬ (createInoScan fs = PFS_MAX_INODES ∨ createDbScan fs = PFS_MAX_INODES) := by
    push_neg
    exact ⟨Nat.ne_of_lt hi, Nat.ne_of_lt hd⟩
  simp only [pantryfs_create]
  rw [if_neg hcond]
  split_ifs with hslot <;> simp

/-- Claim C5 witness: the amended record-field specification evaluated on a
    concrete state where create picks inode number 2 and data block 3. -/
theorem create_record_fields_witness :
    createInoScan S5 < PFS_MAX_INODES ∧ createDbScan S5 < PFS_MAX_INODES ∧
    (((pantryfs_create S5 5 6 7 "b" 0).1.istore (createInoScan S5)).nlink = 1 ∧
     ((pantryfs_create S5 5 6 7 "b" 0).1.istore (createInoScan S5)).mode
       = (S_IFREG ||| 0o666) ∧
     ((pantryfs_create S5 5 6 7 "b" 0).1.istore (createInoScan S5)).file_size = 0 ∧
     ((pantryfs_create S5 5 6 7 "b" 0).1.istore (createInoScan S5)).i_atime = 7 ∧
     ((pantryfs_create S5 5 6 7 "b" 0).1.istore (createInoScan S5)).i_mtime = 7 ∧
     ((pantryfs_create S5 5 6 7 "b" 0).1.istore (createInoScan S5)).i_ctime = 7) :=
  ⟨by decide, by decide, create_record_fields S5 5 6 7 "b" 0 (by decide) (by decide)⟩

/-- A cache hit under key 0 returns the cached inode unchanged, for every
    inode number and record handed to pfs_inode. -/
theorem pfs_inode_cache_hit (c : ℕ → Option Inode) (v : Inode) (hv : c 0 = some v)
    (ino : ℕ) (r : pantryfs_inode) : pfs_inode c ino r = (c, v) := by
  simp [pfs_inode, hv]

/-- Materializing the root inode at mount time on an empty cache stores the
    returned inode under cache key 0. -/
theorem fill_super_caches_root (fs : FS) (c : ℕ → Option Inode) (hc : c 0 = none) :
    (pantryfs_fill_super_root fs c).1 0 = some (pantryfs_fill_super_root fs c).2 := by
  simp [pantryfs_fill_super_root, pfs_inode, hc]

/-- Claim C6: pfs_inode consults the host inode cache under key 0 for every
    inode number it is given; once the root inode is materialized at mount
    time on an empty cache (and carries inode number 1), every later
    pfs_inode call - whatever inode number and on-disk record it is given -
    returns that same cached in-memory inode, and therefore lookup of any
    existing name of acceptable length succeeds with exactly that inode
    rather than one populated from the target record. -/
theorem lookup_returns_cached_root (fs : FS) (c : ℕ → Option Inode)
    (hc : c 0 = none) (ino : ℕ) (r : pantryfs_inode) (name : String)
    (hlen : name.length ≤ PANTRYFS_MAX_FILENAME_LENGTH)
    (hfound : scanFirst (fun k => (fs.dir k).active && ((fs.dir k).filename == name))
        PFS_MAX_CHILDREN < PFS_MAX_CHILDREN) :
    (pantryfs_fill_super_root fs c).2.i_ino = PANTRYFS_ROOT_INODE_NUMBER ∧
    pfs_inode (pantryfs_fill_super_root fs c).1 ino r =
      ((pantryfs_fill_super_root fs c).1, (pantryfs_fill_super_root fs c).2) ∧
    pantryfs_lookup fs (pantryfs_fill_super_root fs c).1 name =
      Except.ok ((pantryfs_fill_super_root fs c).1, some (pantryfs_fill_super_root fs c).2) := by
  have h1 := fill_super_caches_root fs c hc
  refine ⟨?_, ?_, ?_⟩
  · simp [pantryfs_fill_super_root, pfs_inode, hc]
  · exact pfs_inode_cache_hit _ _ h1 ino r
  · simp only [pantryfs_lookup]
    rw [if_neg (by omega), if_neg (Nat.ne_of_lt hfound),
      pfs_inode_cache_hit _ _ h1]

/-- Claim C6 witness: on fsW6 (name a maps to inode 2) with an empty cache,
    the materialized root inode has inode number 1, pfs_inode called for
    inode 2 with inode 2's record returns the cached root inode, and lookup
    of a returns it as well. -/
theorem lookup_returns_cached_root_witness :
    cW6 0 = none ∧
    ("a".length ≤ PANTRYFS_MAX_FILENAME_LENGTH) ∧
    (scanFirst (fun k => (fsW6.dir k).active && ((fsW6.dir k).filename == "a"))
        PFS_MAX_CHILDREN < PFS_MAX_CHILDREN) ∧
    ((pantryfs_fill_super_root fsW6 cW6).2.i_ino = PANTRYFS_ROOT_INODE_NUMBER ∧
     pfs_inode (pantryfs_fill_super_root fsW6 cW6).1 2 (fsW6.istore 2) =
       ((pantryfs_fill_super_root fsW6 cW6).1, (pantryfs_fill_super_root fsW6 cW6).2) ∧
     pantryfs_lookup fsW6 (pantryfs_fill_super_root fsW6 cW6).1 "a" =
       Except.ok ((pantryfs_fill_super_root fsW6 cW6).1,
         some (pantryfs_fill_super_root fsW6 cW6).2)) :=
  ⟨rfl, by decide, by decide,
   lookup_returns_cached_root fsW6 cW6 rfl 2 (fsW6.istore 2) "a" (by decide) (by decide)⟩

/-- Claim C4 (amended): the operations relate the free_inodes bitmap to the
    inode table in the code convention - bit i is set iff the record of inode
    number i (slot index i - 1) is live, with bit 0 permanently set - not in
    the claimed i + 1 convention. create preserves this invariant: the bit it
    sets indexes the same inode number as the live record it writes.
    Reclamation clears the bit and zero-fills the record of the removed inode
    number consistently, but it also clears the bit at the owned data block
    number in free_inodes (instead of free_data_blocks), so it preserves the
    invariant only under the proviso that this data block number is not the
    inode number of a different live inode (it equals the removed inode
    number, or lies outside the table, or names a dead slot). -/
theorem bitmap_invariant_code_convention (fs : FS) (uid gid now : ℕ) (name : String)
    (mode : ℕ) (inode : Inode) (h : codeInv fs) (hino : 1 ≤ inode.i_ino)
    (hdb : (fs.istore inode.i_ino).data_block_number = inode.i_ino ∨
           (1 ≤ (fs.istore inode.i_ino).data_block_number ∧
             (PFS_MAX_INODES ≤ (fs.istore inode.i_ino).data_block_number ∨
              fs.istore ((fs.istore inode.i_ino).data_block_number) = pantryfs_inode.zero))) :
    codeInv (pantryfs_create fs uid gid now name mode).1 ∧
    codeInv (PFS_remove_inode fs inode) := by
  constructor
  · by_cases hcond : createInoScan fs = PFS_MAX_INODES ∨ createDbScan fs = PFS_MAX_INODES
    · simp only [pantryfs_create]
      rw [if_pos hcond]
      exact h
    · simp only [pantryfs_create]
      rw [if_neg hcond]
      split_ifs with hslot
      · exact codeInv_update fs _ h (createInoScan fs) _
          (createRec_ne_zero uid gid now (createDbScan fs)) rfl rfl
      · exact codeInv_update fs _ h (createInoScan fs) _
          (createRec_ne_zero uid gid now (createDbScan fs)) rfl rfl
  · have hdbpos : 1 ≤ (fs.istore inode.i_ino).data_block_number := by
      rcases hdb with h' | h'
      · omega
      · exact h'.1
    constructor
    · show (if (0 : ℕ) = (fs.istore inode.i_ino).data_block_number then false
        else if (0 : ℕ) = inode.i_ino then false
        else fs.free_inodes 0) = true
      rw [if_neg (by omega), if_neg (by omega)]
      exact h.1
    · intro i hi h1
      show (if i = (fs.istore inode.i_ino).data_block_number then false
          else if i = inode.i_ino then false
          else fs.free_inodes i) = true ↔
        (if i = inode.i_ino then pantryfs_inode.zero else fs.istore i) ≠ pantryfs_inode.zero
      by_cases hii : i = inode.i_ino
      · subst hii
        simp
      · simp only [if_neg hii]
        by_cases hid : i = (fs.istore inode.i_ino).data_block_number
        · rcases hdb with h' | h'
          · exact absurd (hid.trans h') hii
          · rcases h'.2 with hge | hz
            · omega
            · simp only [if_pos hid]
              rw [hid, hz]
              simp
        · simp only [if_neg hid]
          exact h.2 i hi h1

/-- Claim C4 witness: the code-convention invariant holds on fs4w (only the
    root inode live, its data block 2 being a dead slot), create preserves
    it, and removing the root inode preserves it under the proviso. -/
theorem bitmap_invariant_code_convention_witness :
    codeInv fs4w ∧ 1 ≤ vW4.i_ino ∧
    ((fs4w.istore vW4.i_ino).data_block_number = vW4.i_ino ∨
      (1 ≤ (fs4w.istore vW4.i_ino).data_block_number ∧
        (PFS_MAX_INODES ≤ (fs4w.istore vW4.i_ino).data_block_number ∨
         fs4w.istore ((fs4w.istore vW4.i_ino).data_block_number) = pantryfs_inode.zero))) ∧
    (codeInv (pantryfs_create fs4w 0 0 7 "a" 420).1 ∧
     codeInv (PFS_remove_inode fs4w vW4)) :=
  ⟨by unfold codeInv; decide, by decide, by decide,
   bitmap_invariant_code_convention fs4w 0 0 7 "a" 420 vW4
     (by unfold codeInv; decide) (by decide) (by decide)⟩
